import Mathlib

/-!
Verification of the weather/echo MCP tool handlers.

The Python handlers operate on parsed JSON documents fetched from external
weather APIs.  We embed the JSON value space as an inductive tree, embed the
relevant Python primitives (truthiness, `in`, subscripting, iteration,
`dict.get`, `str.join`, f-string rendering) and then transcribe each handler
from `weather.py` / `server.py`.  Fallible Python operations (which raise
`KeyError` / `TypeError` / `AttributeError`) are embedded in `Except PyErr`;
a handler that catches no exceptions keeps the `Except` in its result type,
while `get_tokyo_weather`, whose whole body sits inside `try/except`, folds
every error into its sentinel message.
-/

set_option autoImplicit false

/-- A parsed JSON document: the weakly-typed tree the handlers traverse.
Objects are insertion-ordered key/value lists (parsed JSON never repeats a
key).  Numeric scalars are modelled as integers; no claim depends on
floating-point numerals inside a document. -/
inductive JSON where
  | null
  | bool (b : Bool)
  | num (n : Int)
  | str (s : String)
  | arr (elems : List JSON)
  | obj (fields : List (String × JSON))

/-- The Python exceptions the transcribed code can raise. -/
inductive PyErr where
  | keyError
  | typeError
  | attributeError
deriving DecidableEq

/-- First-match lookup in an ordered key/value list (`dict` access). -/
def lookupKey (kvs : List (String × JSON)) (key : String) : Option JSON :=
  match kvs with
  | [] => none
  | kv :: rest => if kv.1 == key then some kv.2 else lookupKey rest key

/-- Python truthiness of a JSON value (`bool(v)`). -/
def JSON.truthy : JSON → Bool
  | .null => false
  | .bool b => b
  | .num n => n != 0
  | .str s => s != ""
  | .arr xs => !xs.isEmpty
  | .obj kvs => !kvs.isEmpty

/-- `needle` is a leading run of `hay` (character-list prefix test). -/
def leadingChars : List Char → List Char → Bool
  | [], _ => true
  | _ :: _, [] => false
  | a :: as, b :: bs => a == b && leadingChars as bs

/-- `needle` occurs contiguously somewhere in `hay`. -/
def occursChars (needle : List Char) : List Char → Bool
  | [] => leadingChars needle []
  | b :: bs => leadingChars needle (b :: bs) || occursChars needle bs

/-- Python substring test `needle in hay` for strings. -/
def strContains (hay needle : String) : Bool :=
  occursChars needle.data hay.data

/-- Python membership `needle in container` for a string needle: substring
test on strings, element test on lists, key test on dicts, `TypeError`
otherwise. -/
def pyInJSON (needle : String) (container : JSON) : Except PyErr Bool :=
  match container with
  | .str s => .ok (strContains s needle)
  | .arr xs => .ok (xs.any fun x => match x with | .str t => t == needle | _ => false)
  | .obj kvs => .ok (kvs.any fun kv => kv.1 == needle)
  | _ => .error .typeError

/-- Python subscript `v[key]` with a string key: `KeyError` on a dict missing
the key, `TypeError` on any non-dict. -/
def pySubscript (v : JSON) (key : String) : Except PyErr JSON :=
  match v with
  | .obj kvs =>
    match lookupKey kvs key with
    | some x => .ok x
    | none => .error .keyError
  | _ => .error .typeError

/-- Python iteration `for x in v`: list elements, string characters, dict
keys; `TypeError` on scalars. -/
def pyIter : JSON → Except PyErr (List JSON)
  | .arr xs => .ok xs
  | .str s => .ok (s.data.map fun c => JSON.str c.toString)
  | .obj kvs => .ok (kvs.map fun kv => JSON.str kv.1)
  | _ => .error .typeError

mutual

/-- Python `repr` of a JSON value.  Exact for scalars and containers whose
strings carry no quote/backslash/control characters (string escaping inside
`repr` is not modelled; no claim depends on it). -/
def pyRepr : JSON → String
  | .null => "None"
  | .bool true => "True"
  | .bool false => "False"
  | .num n => toString n
  | .str s => (Char.ofNat 39).toString ++ s ++ (Char.ofNat 39).toString
  | .arr xs => "[" ++ pyReprList xs ++ "]"
  | .obj kvs => "\x7b" ++ pyReprFields kvs ++ "\x7d"

def pyReprList : List JSON → String
  | [] => ""
  | [x] => pyRepr x
  | x :: y :: rest => pyRepr x ++ ", " ++ pyReprList (y :: rest)

def pyReprFields : List (String × JSON) → String
  | [] => ""
  | [kv] => (Char.ofNat 39).toString ++ kv.1 ++ (Char.ofNat 39).toString ++ ": " ++ pyRepr kv.2
  | kv :: kv2 :: rest =>
    (Char.ofNat 39).toString ++ kv.1 ++ (Char.ofNat 39).toString ++ ": " ++ pyRepr kv.2
      ++ ", " ++ pyReprFields (kv2 :: rest)

end

/-- Python `str()` of a JSON value, as interpolated by an f-string. -/
def pyStr : JSON → String
  | .str s => s
  | v => pyRepr v

/-- Python `sep.join(parts)`. -/
def pyJoin (sep : String) : List String → String
  | [] => ""
  | [x] => x
  | x :: y :: rest => x ++ sep ++ pyJoin sep (y :: rest)

/-- Map a fallible function over a list, stopping at the first error (the
semantics of a Python list comprehension whose body may raise). -/
def mapExcept (f : JSON → Except PyErr String) : List JSON → Except PyErr (List String)
  | [] => .ok []
  | x :: xs =>
    match f x with
    | .error e => .error e
    | .ok s =>
      match mapExcept f xs with
      | .error e => .error e
      | .ok ss => .ok (s :: ss)

/-- The observable outcome of a single `httpx` GET (the spec's external
collaborator boundary, §6): a transport failure / raised exception, or a
response with a status code and — when the body parses as JSON — its parsed
value (`body = none` models a body that is not well-formed JSON, so that
`response.json()` raises). -/
inductive GetResult where
  | failure
  | response (status : Nat) (body : Option JSON)

/-- Embedding of `make_nws_request` (weather.py:15-27): `try` GET,
`raise_for_status` (raises unless the status is a 2xx success),
`response.json()` (raises on a malformed body); `except Exception: return
None`. -/
def make_nws_request (r : GetResult) : Option JSON :=
  match r with
  | .failure => none
  | .response status body =>
    if 200 ≤ status ∧ status ≤ 299 then body else none

/-- Embedding of `format_alert` (weather.py:30-39).  `feature["properties"]`
is a raw subscript (KeyError/TypeError propagate); the five inner fields use
`props.get(..., sentinel)` — but `.get` itself raises `AttributeError` when
`props` is not a dict. -/
def format_alert (feature : JSON) : Except PyErr String :=
  match pySubscript feature "properties" with
  | .error e => .error e
  | .ok props =>
    match props with
    | .obj pkvs =>
      .ok ("\nEvent: " ++ pyStr ((lookupKey pkvs "event").getD (.str "Unknown"))
        ++ "\nArea: " ++ pyStr ((lookupKey pkvs "areaDesc").getD (.str "Unknown"))
        ++ "\nSeverity: " ++ pyStr ((lookupKey pkvs "severity").getD (.str "Unknown"))
        ++ "\nDescription: "
        ++ pyStr ((lookupKey pkvs "description").getD (.str "No description available"))
        ++ "\nInstructions: "
        ++ pyStr ((lookupKey pkvs "instruction").getD (.str "No specific instructions provided"))
        ++ "\n")
    | _ => .error .attributeError

/-- Embedding of `get_alerts` (weather.py:42-59), taking the result of
`make_nws_request` as input.  The handler has no `try/except`, so errors
raised while processing a fetched document escape as `.error`. -/
def get_alerts (data? : Option JSON) : Except PyErr String :=
  match data? with
  | none => .ok "Unable to fetch alerts or no alerts found."
  | some data =>
    if data.truthy = false then .ok "Unable to fetch alerts or no alerts found."
    else
      match pyInJSON "features" data with
      | .error e => .error e
      | .ok false => .ok "Unable to fetch alerts or no alerts found."
      | .ok true =>
        match pySubscript data "features" with
        | .error e => .error e
        | .ok feats =>
          if feats.truthy = false then .ok "No active alerts for this state."
          else
            match pyIter feats with
            | .error e => .error e
            | .ok items =>
              match mapExcept format_alert items with
              | .error e => .error e
              | .ok alerts => .ok (pyJoin "\n---\n" alerts)

/-- Python slice `v[:5]`: lists and strings are sliced, anything else raises
`TypeError` (a dict rejects a slice key). -/
def pySlice5 : JSON → Except PyErr JSON
  | .arr xs => .ok (.arr (xs.take 5))
  | .str s => .ok (.str ⟨s.data.take 5⟩)
  | _ => .error .typeError

/-- Embedding of the per-period block built inside `get_forecast`
(weather.py:181-186): every field is a raw subscript. -/
def format_period (period : JSON) : Except PyErr String :=
  match pySubscript period "name" with
  | .error e => .error e
  | .ok nm =>
    match pySubscript period "temperature" with
    | .error e => .error e
    | .ok temp =>
      match pySubscript period "temperatureUnit" with
      | .error e => .error e
      | .ok tempUnit =>
        match pySubscript period "windSpeed" with
        | .error e => .error e
        | .ok windSpeed =>
          match pySubscript period "windDirection" with
          | .error e => .error e
          | .ok windDir =>
            match pySubscript period "detailedForecast" with
            | .error e => .error e
            | .ok detailed =>
              .ok ("\n" ++ pyStr nm ++ ":\nTemperature: " ++ pyStr temp ++ "°"
                ++ pyStr tempUnit ++ "\nWind: " ++ pyStr windSpeed ++ " "
                ++ pyStr windDir ++ "\nForecast: " ++ pyStr detailed ++ "\n")

/-- Embedding of `get_forecast` (weather.py:155-189), taking the results of
its two `make_nws_request` calls as inputs.  `points?` is the "points"
fetch; `forecast?` is the second fetch, consulted only after the forecast
URL has been extracted.  `points_data["properties"]["forecast"]` and the
period fields are raw subscripts and the handler has no `try/except`. -/
def get_forecast (points? forecast? : Option JSON) : Except PyErr String :=
  match points? with
  | none => .ok "Unable to fetch forecast data for this location."
  | some pd =>
    if pd.truthy = false then .ok "Unable to fetch forecast data for this location."
    else
      match pySubscript pd "properties" with
      | .error e => .error e
      | .ok props =>
        match pySubscript props "forecast" with
        | .error e => .error e
        | .ok _forecastUrl =>
          match forecast? with
          | none => .ok "Unable to fetch detailed forecast."
          | some fd =>
            if fd.truthy = false then .ok "Unable to fetch detailed forecast."
            else
              match pySubscript fd "properties" with
              | .error e => .error e
              | .ok fprops =>
                match pySubscript fprops "periods" with
                | .error e => .error e
                | .ok periods =>
                  match pySlice5 periods with
                  | .error e => .error e
                  | .ok sliced =>
                    match pyIter sliced with
                    | .error e => .error e
                    | .ok items =>
                      match mapExcept format_period items with
                      | .error e => .error e
                      | .ok blocks => .ok (pyJoin "\n---\n" blocks)

/-- Embedding of `echo` (server.py:6-9). -/
def echo (text : String) : String := text

/-- Embedding of `add` (server.py:12-15); arguments are IEEE doubles, as in
Python. -/
def add (a b : Float) : Float := a + b

/-- The fixed preference list of `get_tokyo_weather` (weather.py:79). -/
def preferred_names : List String := ["東京地方", "東京", "Tokyo"]

/-- Truthiness of the `today_weather` variable, which is either Python
`None` or a JSON value (`if today_weather:` / `if not today_weather`). -/
def truthyOpt : Option JSON → Bool
  | none => false
  | some v => v.truthy

/-- `area.get("area", {}) if isinstance(area.get("area"), dict) else {}`
followed by `.get("name", "")` (weather.py:105-110): the area-name value,
defaulting to the empty string. -/
def areaName (akvs : List (String × JSON)) : JSON :=
  match lookupKey akvs "area" with
  | some (.obj ikvs) => (lookupKey ikvs "name").getD (.str "")
  | _ => .str ""

/-- `any(name in area_name for name in preferred_names)` (weather.py:111):
the three membership tests in order, stopping at the first `True`; a raised
`TypeError` (non-container name value) propagates. -/
def anyPreferredIn (nameVal : JSON) : Except PyErr Bool :=
  match pyInJSON "東京地方" nameVal with
  | .error e => .error e
  | .ok true => .ok true
  | .ok false =>
    match pyInJSON "東京" nameVal with
    | .error e => .error e
    | .ok true => .ok true
    | .ok false => pyInJSON "Tokyo" nameVal

/-- `ts.get("areas", []) if isinstance(ts, dict) else []`
(weather.py:90-94 and 128-132). -/
def tsAreas (ts : JSON) : JSON :=
  match ts with
  | .obj tkvs => (lookupKey tkvs "areas").getD (.arr [])
  | _ => .arr []

/-- `obj.get("timeSeries", []) if isinstance(obj, dict) else []`
(weather.py:84-88 and 122-126). -/
def objTimeSeries (o : JSON) : JSON :=
  match o with
  | .obj okvs => (lookupKey okvs "timeSeries").getD (.arr [])
  | _ => .arr []

/-- Outcome of one iteration of the preferred pass's innermost loop body
(weather.py:95-113) on a single area node: `continue` past the area, set
`today_weather` to the first weather entry and `break`, or raise. -/
inductive AreaStep where
  | skip
  | found (w : JSON)
  | raise (e : PyErr)

/-- One iteration of the preferred pass's `for area in areas` body
(weather.py:95-113): non-dicts and areas without a non-empty `weathers`
list are skipped; otherwise the preferred-name test either raises, matches
(recording `weathers[0]`), or lets the loop continue. -/
def prefAreaStep (a : JSON) : AreaStep :=
  match a with
  | .obj akvs =>
    match lookupKey akvs "weathers" with
    | some (.arr (w :: _)) =>
      match anyPreferredIn (areaName akvs) with
      | .error e => .raise e
      | .ok true => .found w
      | .ok false => .skip
    | _ => .skip
  | _ => .skip

/-- Preferred pass, innermost loop (`for area in areas`, weather.py:95-113).
Returns the value of `today_weather` after the loop (`.ok (some w)` exactly
when the loop `break`s on a match). -/
def prefAreas (today : Option JSON) : List JSON → Except PyErr (Option JSON)
  | [] => .ok today
  | a :: rest =>
    match prefAreaStep a with
    | .raise e => .error e
    | .found w => .ok (some w)
    | .skip => prefAreas today rest

/-- Preferred pass, middle loop (`for ts in time_series`, weather.py:89-115),
with the trailing `if today_weather: break` truthiness check. -/
def prefTs (today : Option JSON) : List JSON → Except PyErr (Option JSON)
  | [] => .ok today
  | ts :: rest =>
    match pyIter (tsAreas ts) with
    | .error e => .error e
    | .ok items =>
      match prefAreas today items with
      | .error e => .error e
      | .ok today1 =>
        if truthyOpt today1 then .ok today1 else prefTs today1 rest

/-- Preferred pass, outer loop (`for obj in data`, weather.py:83-117). -/
def prefObjs (today : Option JSON) : List JSON → Except PyErr (Option JSON)
  | [] => .ok today
  | o :: rest =>
    match pyIter (objTimeSeries o) with
    | .error e => .error e
    | .ok items =>
      match prefTs today items with
      | .error e => .error e
      | .ok today1 =>
        if truthyOpt today1 then .ok today1 else prefObjs today1 rest

/-- The whole preferred pass (weather.py:82-117): runs only when the parsed
document is a list. -/
def prefPass (data : JSON) : Except PyErr (Option JSON) :=
  match data with
  | .arr objs => prefObjs none objs
  | _ => .ok none

/-- Fallback pass, innermost loop (`for area in areas`, weather.py:133-142):
non-dict areas are skipped, but the first dict area always `break`s the
loop — with `weathers_any[0]` recorded when it is a non-empty list, and with
`today_weather` untouched otherwise. -/
def fbAreas (today : Option JSON) : List JSON → Option JSON
  | [] => today
  | a :: rest =>
    match a with
    | .obj akvs =>
      match lookupKey akvs "weathers" with
      | some (.arr (w :: _)) => some w
      | _ => today
    | _ => fbAreas today rest

/-- Fallback pass, middle loop (weather.py:127-144). -/
def fbTs (today : Option JSON) : List JSON → Except PyErr (Option JSON)
  | [] => .ok today
  | ts :: rest =>
    match pyIter (tsAreas ts) with
    | .error e => .error e
    | .ok items =>
      let today1 := fbAreas today items
      if truthyOpt today1 then .ok today1 else fbTs today1 rest

/-- Fallback pass, outer loop (weather.py:121-146). -/
def fbObjs (today : Option JSON) : List JSON → Except PyErr (Option JSON)
  | [] => .ok today
  | o :: rest =>
    match pyIter (objTimeSeries o) with
    | .error e => .error e
    | .ok items =>
      match fbTs today items with
      | .error e => .error e
      | .ok today1 =>
        if truthyOpt today1 then .ok today1 else fbObjs today1 rest

/-- The two-pass resolver of `get_tokyo_weather` (weather.py:79-146): the
preferred pass, then — only when `today_weather` is still falsy and the
document is a list — the fallback pass.  The final value of
`today_weather`. -/
def tokyoResolve (data : JSON) : Except PyErr (Option JSON) :=
  match prefPass data with
  | .error e => .error e
  | .ok t1 =>
    if truthyOpt t1 then .ok t1
    else
      match data with
      | .arr objs => fbObjs t1 objs
      | _ => .ok t1

/-- Body of `get_tokyo_weather` after a successful fetch (weather.py:77-152):
render `today_weather` when truthy, otherwise the sentinel; every exception
raised while traversing the document is caught by the surrounding
`try/except` and also yields the sentinel. -/
def get_tokyo_weather_ofDoc (data : JSON) : String :=
  match tokyoResolve data with
  | .ok (some w) =>
    if w.truthy then "東京の今日の天気: " ++ pyStr w
    else "東京の天気情報を取得できませんでした。"
  | _ => "東京の天気情報を取得できませんでした。"

/-- Embedding of `get_tokyo_weather` (weather.py:62-152): the inline fetch
(GET, `raise_for_status`, `.json()`) sits inside the same `try/except`, so
any fetch failure yields the sentinel message. -/
def get_tokyo_weather (r : GetResult) : String :=
  match r with
  | .failure => "東京の天気情報を取得できませんでした。"
  | .response status body =>
    if 200 ≤ status ∧ status ≤ 299 then
      match body with
      | some data => get_tokyo_weather_ofDoc data
      | none => "東京の天気情報を取得できませんでした。"
    else "東京の天気情報を取得できませんでした。"

/-- Every run of the post-fetch body of `get_tokyo_weather` either yields the
sentinel message or renders a truthy resolved weather value. -/
theorem ofDoc_cases (data : JSON) :
    get_tokyo_weather_ofDoc data = "東京の天気情報を取得できませんでした。"
    ∨ ∃ w, tokyoResolve data = .ok (some w) ∧ w.truthy = true
        ∧ get_tokyo_weather_ofDoc data = "東京の今日の天気: " ++ pyStr w := by
  cases h : tokyoResolve data with
  | error e => exact Or.inl (by simp [get_tokyo_weather_ofDoc, h])
  | ok t =>
    cases t with
    | none => exact Or.inl (by simp [get_tokyo_weather_ofDoc, h])
    | some w =>
      cases hw : w.truthy with
      | false => exact Or.inl (by simp [get_tokyo_weather_ofDoc, h, hw])
      | true => exact Or.inr ⟨w, rfl, hw, by simp [get_tokyo_weather_ofDoc, h, hw]⟩

/-- C9: the `echo` tool returns its string argument unchanged, and the `add`
tool returns the sum `a + b` of its two numeric arguments. -/
theorem c9_echo_add : (∀ s : String, echo s = s) ∧ (∀ a b : Float, add a b = a + b) :=
  ⟨fun _ => rfl, fun _ _ => rfl⟩

/-- C6: `make_nws_request` is Option-like: a transport failure, a non-2xx
status, or a body that is not well-formed JSON all yield `none`, and a 2xx
response with a parsed body yields exactly that parsed value. -/
theorem c6_make_nws_request (status : Nat) (body : Option JSON) :
    make_nws_request .failure = none
    ∧ (¬(200 ≤ status ∧ status ≤ 299) → make_nws_request (.response status body) = none)
    ∧ ((200 ≤ status ∧ status ≤ 299) → make_nws_request (.response status body) = body) := by
  refine ⟨rfl, fun h => ?_, fun h => ?_⟩ <;> simp [make_nws_request, h]

/-- Witness for C6 at status 404 (no data) and status 200 (parsed body). -/
theorem c6_make_nws_request_witness :
    make_nws_request (.response 404 (some (.num 1))) = none
    ∧ make_nws_request (.response 200 (some (.num 1))) = some (.num 1) :=
  ⟨(c6_make_nws_request 404 (some (.num 1))).2.1 (by decide),
   (c6_make_nws_request 200 (some (.num 1))).2.2 (by decide)⟩

/-- C7: when the points fetch yields no data, `get_forecast` returns the
stage-one message and its result does not depend on the second fetch (which
is therefore never attempted); when the points document is fetched and the
forecast URL is extracted but the second fetch yields no data, it returns
the distinct stage-two message. -/
theorem c7_get_forecast (f f2 : Option JSON) (kvs pkvs : List (String × JSON)) (url : JSON) :
    get_forecast none f = .ok "Unable to fetch forecast data for this location."
    ∧ get_forecast none f = get_forecast none f2
    ∧ (lookupKey kvs "properties" = some (.obj pkvs) →
       lookupKey pkvs "forecast" = some url →
       get_forecast (some (.obj kvs)) none = .ok "Unable to fetch detailed forecast.") := by
  refine ⟨rfl, rfl, fun h1 h2 => ?_⟩
  have ht : (JSON.obj kvs).truthy = true := by
    cases kvs with
    | nil => simp [lookupKey] at h1
    | cons a l => rfl
  simp [get_forecast, ht, pySubscript, h1, h2]

/-- Witness for C7: a failing first fetch, and a good points document with a
failing second fetch. -/
theorem c7_get_forecast_witness :
    get_forecast none (some (.num 1)) = .ok "Unable to fetch forecast data for this location."
    ∧ get_forecast (some (.obj [("properties", .obj [("forecast", .str "u")])])) none
      = .ok "Unable to fetch detailed forecast." :=
  ⟨(c7_get_forecast (some (.num 1)) none [("properties", .obj [("forecast", .str "u")])]
      [("forecast", .str "u")] (.str "u")).1,
   (c7_get_forecast (some (.num 1)) none [("properties", .obj [("forecast", .str "u")])]
      [("forecast", .str "u")] (.str "u")).2.2 rfl rfl⟩

/-- C2 (code bug): a document with no preferred-name area, whose single
areas list holds a weathers-less dict area followed by an area with
weathers ["くもり"].  The preferred pass finds nothing, yet the fallback
pass also returns nothing — the sentinel message results instead of
"くもり" — because the fallback `break`s at the first dict area of the
list even when that area has no weathers. -/
theorem c2_fallback_eval :
    get_tokyo_weather_ofDoc (.arr [.obj [("timeSeries", .arr [.obj [("areas", .arr [
      .obj [("area", .obj [("name", .str "大阪")])],
      .obj [("weathers", .arr [.str "くもり"])]])]])]])
      = "東京の天気情報を取得できませんでした。"
    ∧ prefPass (.arr [.obj [("timeSeries", .arr [.obj [("areas", .arr [
      .obj [("area", .obj [("name", .str "大阪")])],
      .obj [("weathers", .arr [.str "くもり"])]])]])]]) = .ok none :=
  ⟨rfl, rfl⟩

/-- C5: with an unnamed area carrying weathers ["雨"] placed before the
area named "東京地方" carrying weathers ["晴れ"], `get_tokyo_weather`
reports 晴れ (the preferred-name match beats document order); and with two
preferred-name areas, the first match in document order wins. -/
theorem c5_preferred_over_order :
    get_tokyo_weather_ofDoc (.arr [.obj [("timeSeries", .arr [.obj [("areas", .arr [
      .obj [("weathers", .arr [.str "雨"])],
      .obj [("area", .obj [("name", .str "東京地方")]), ("weathers", .arr [.str "晴れ"])]])]])]])
      = "東京の今日の天気: 晴れ"
    ∧ get_tokyo_weather_ofDoc (.arr [.obj [("timeSeries", .arr [.obj [("areas", .arr [
      .obj [("area", .obj [("name", .str "東京地方")]), ("weathers", .arr [.str "晴れ"])],
      .obj [("area", .obj [("name", .str "東京")]), ("weathers", .arr [.str "雨"])]])]])]])
      = "東京の今日の天気: 晴れ" :=
  ⟨rfl, rfl⟩

/-- C3 counterexample: the first preferred-name area reached (named
"東京地方", non-empty weathers [""]) is not taken as the result and the
loops do not stop: a later time-series entry supplies 晴れ.  On the
truncated document ending at that first match, the result is the sentinel —
so the traversal after the first match changed the outcome, contradicting
the claimed immediate short-circuit. -/
theorem c3_counterexample :
    get_tokyo_weather_ofDoc (.arr [.obj [("timeSeries", .arr [
      .obj [("areas", .arr [.obj [("area", .obj [("name", .str "東京地方")]),
        ("weathers", .arr [.str ""])]])],
      .obj [("areas", .arr [.obj [("area", .obj [("name", .str "東京")]),
        ("weathers", .arr [.str "晴れ"])]])]])]])
      = "東京の今日の天気: 晴れ"
    ∧ get_tokyo_weather_ofDoc (.arr [.obj [("timeSeries", .arr [
      .obj [("areas", .arr [.obj [("area", .obj [("name", .str "東京地方")]),
        ("weathers", .arr [.str ""])]])]])]])
      = "東京の天気情報を取得できませんでした。" :=
  ⟨rfl, rfl⟩

/-- C10: whenever `get_tokyo_weather` reports a success message the embedded
weather value is truthy (never empty); and a document whose only
preferred-name match has the empty string as its first weather entry yields
the failure sentinel, not a success message. -/
theorem c10_success_truthy :
    (∀ data : JSON,
      get_tokyo_weather_ofDoc data = "東京の天気情報を取得できませんでした。"
      ∨ ∃ w, tokyoResolve data = .ok (some w) ∧ w.truthy = true
          ∧ get_tokyo_weather_ofDoc data = "東京の今日の天気: " ++ pyStr w)
    ∧ get_tokyo_weather_ofDoc (.arr [.obj [("timeSeries", .arr [
        .obj [("areas", .arr [.obj [("area", .obj [("name", .str "東京地方")]),
          ("weathers", .arr [.str ""])]])]])]])
      = "東京の天気情報を取得できませんでした。" :=
  ⟨ofDoc_cases, rfl⟩

/-- C4 counterexample: a successful points fetch whose document lacks the
"properties" key makes `get_forecast` raise `KeyError` out of the handler
instead of rendering a message — external-data failures are not all
absorbed at the handler boundary. -/
theorem c4_counterexample :
    get_forecast (some (.obj [("a", .num 1)])) none = .error .keyError := rfl

/-- C4 as amended: `get_tokyo_weather` absorbs every failure (its result is
always the sentinel or a rendered success message), and `get_alerts` /
`get_forecast` absorb a fetch that yields no data, rendering their
unable-to-fetch messages; but a malformed fetched document can raise out of
`get_alerts` and `get_forecast` (see the counterexample). -/
theorem c4_amended :
    (∀ r : GetResult,
      get_tokyo_weather r = "東京の天気情報を取得できませんでした。"
      ∨ ∃ w, get_tokyo_weather r = "東京の今日の天気: " ++ pyStr w)
    ∧ get_alerts none = .ok "Unable to fetch alerts or no alerts found."
    ∧ (∀ f : Option JSON,
        get_forecast none f = .ok "Unable to fetch forecast data for this location.") := by
  refine ⟨?_, rfl, fun f => rfl⟩
  intro r
  cases r with
  | failure => exact Or.inl rfl
  | response status body =>
    by_cases hst : 200 ≤ status ∧ status ≤ 299
    · cases body with
      | none => exact Or.inl (by simp [get_tokyo_weather, hst])
      | some data =>
        have hr : get_tokyo_weather (.response status (some data))
            = get_tokyo_weather_ofDoc data := by
          simp [get_tokyo_weather, hst]
        rcases ofDoc_cases data with h | ⟨w, _, _, h⟩
        · exact Or.inl (hr.trans h)
        · exact Or.inr ⟨w, hr.trans h⟩
    · exact Or.inl (by simp [get_tokyo_weather, hst])

/-- C1 counterexample: `format_alert` reads `feature["properties"]` with no
existence check, so a feature lacking that field raises `KeyError` — and the
error escapes `get_alerts` — rather than degrading to a sentinel value. -/
theorem c1_counterexample :
    format_alert (.obj [("id", .num 1)]) = .error .keyError
    ∧ get_alerts (some (.obj [("features", .arr [.obj [("id", .num 1)]])]))
      = .error .keyError :=
  ⟨rfl, rfl⟩

/-- C1 as amended: once the "properties" field exists as a map,
`format_alert`'s five field reads all degrade to sentinel defaults (the call
succeeds for every such feature); and inside `get_tokyo_weather` every
traversal failure degrades to the sentinel message, never to a failure of
the call.  The unchecked accesses of the counterexample (and
`get_forecast`'s raw subscripts) remain able to fail. -/
theorem c1_amended :
    (∀ (kvs pkvs : List (String × JSON)),
      lookupKey kvs "properties" = some (.obj pkvs) →
      ∃ s, format_alert (.obj kvs) = .ok s)
    ∧ (∀ (data : JSON) (e : PyErr), tokyoResolve data = .error e →
      get_tokyo_weather_ofDoc data = "東京の天気情報を取得できませんでした。") := by
  constructor
  · intro kvs pkvs h
    refine ⟨"\nEvent: " ++ pyStr ((lookupKey pkvs "event").getD (.str "Unknown"))
      ++ "\nArea: " ++ pyStr ((lookupKey pkvs "areaDesc").getD (.str "Unknown"))
      ++ "\nSeverity: " ++ pyStr ((lookupKey pkvs "severity").getD (.str "Unknown"))
      ++ "\nDescription: "
      ++ pyStr ((lookupKey pkvs "description").getD (.str "No description available"))
      ++ "\nInstructions: "
      ++ pyStr ((lookupKey pkvs "instruction").getD (.str "No specific instructions provided"))
      ++ "\n", ?_⟩
    simp [format_alert, pySubscript, h]
  · intro data e h
    simp [get_tokyo_weather_ofDoc, h]

/-- Witness for C1's amended theorem: a feature whose properties map is
empty formats successfully, and a document whose `timeSeries` value is a
number (iteration raises `TypeError`) yields the sentinel. -/
theorem c1_amended_witness :
    (∃ s, format_alert (.obj [("properties", .obj [])]) = .ok s)
    ∧ get_tokyo_weather_ofDoc (.arr [.obj [("timeSeries", .num 5)]])
      = "東京の天気情報を取得できませんでした。" :=
  ⟨c1_amended.1 [("properties", .obj [])] [] rfl,
   c1_amended.2 (.arr [.obj [("timeSeries", .num 5)]]) .typeError rfl⟩

/-- Splitting the preferred pass's areas loop: scanning `as1 ++ as2` either
stops inside `as1` (match or exception, independent of `today_weather`) or
reaches `as2` with `today_weather` unchanged. -/
theorem prefAreas_split (as1 : List JSON) (t : Option JSON) (as2 : List JSON) :
    prefAreas t (as1 ++ as2)
      = match prefAreas none as1 with
        | .ok none => prefAreas t as2
        | .ok (some w) => .ok (some w)
        | .error e => .error e := by
  induction as1 with
  | nil => simp [prefAreas]
  | cons a rest ih =>
    cases hs : prefAreaStep a with
    | raise e => simp [prefAreas, hs]
    | found w => simp [prefAreas, hs]
    | skip => simpa [prefAreas, hs] using ih

/-- The areas loop reads `today_weather` only to return it: its scan is
independent of the incoming value. -/
theorem prefAreas_today (as : List JSON) (t : Option JSON) :
    prefAreas t as
      = match prefAreas none as with
        | .ok none => .ok t
        | .ok (some w) => .ok (some w)
        | .error e => .error e := by
  have h := prefAreas_split as t []
  rw [List.append_nil] at h
  rw [h]
  cases prefAreas none as with
  | error e => rfl
  | ok u => cases u with
    | none => rfl
    | some w => rfl

/-- If the areas loop finds no match starting from `none` it finds none from
any `today_weather`. -/
theorem prefAreas_today_none (as : List JSON) (t : Option JSON)
    (h : prefAreas none as = .ok none) : prefAreas t as = .ok t := by
  have h2 := prefAreas_today as t
  rw [h] at h2
  exact h2

/-- Once `today_weather` is set it is never reset to `None` by the ts loop. -/
theorem prefAreas_some_ne_none (as : List JSON) (w : JSON) :
    prefAreas (some w) as ≠ .ok none := by
  rw [prefAreas_today as (some w)]
  cases prefAreas none as with
  | error e => simp
  | ok u => cases u with
    | none => simp
    | some w2 => simp

/-- Splitting the preferred pass's time-series loop at a falsy
`today_weather`: the scan of `tss1 ++ tss2` runs `tss1` first and continues
into `tss2` exactly when `tss1` ends with a still-falsy `today_weather`. -/
theorem prefTs_append (tss1 : List JSON) (t : Option JSON) (ht : truthyOpt t = false)
    (tss2 : List JSON) :
    prefTs t (tss1 ++ tss2)
      = match prefTs t tss1 with
        | .error e => .error e
        | .ok t1 => if truthyOpt t1 then .ok t1 else prefTs t1 tss2 := by
  induction tss1 generalizing t with
  | nil => simp [prefTs, ht]
  | cons ts rest ih =>
    cases hit : pyIter (tsAreas ts) with
    | error e => simp [prefTs, hit]
    | ok items =>
      cases hpa : prefAreas t items with
      | error e => simp [prefTs, hit, hpa]
      | ok t1 =>
        cases ht1 : truthyOpt t1 with
        | true => simp [prefTs, hit, hpa, ht1]
        | false => simp [prefTs, hit, hpa, ht1, ih t1 ht1]

/-- The time-series loop never resets a set `today_weather` to `None`. -/
theorem prefTs_some_ne_none (tss : List JSON) (w : JSON) :
    prefTs (some w) tss ≠ .ok none := by
  induction tss generalizing w with
  | nil => simp [prefTs]
  | cons ts rest ih =>
    cases hit : pyIter (tsAreas ts) with
    | error e => simp [prefTs, hit]
    | ok items =>
      cases hpa : prefAreas (some w) items with
      | error e => simp [prefTs, hit, hpa]
      | ok t1 =>
        cases t1 with
        | none => exact absurd hpa (prefAreas_some_ne_none items w)
        | some w1 =>
          cases ht1 : truthyOpt (some w1) with
          | true => simp [prefTs, hit, hpa, ht1]
          | false => simpa [prefTs, hit, hpa, ht1] using ih w1

/-- The time-series loop depends on a falsy incoming `today_weather` only
through the final returned value. -/
theorem prefTs_today (tss : List JSON) (t : Option JSON) (ht : truthyOpt t = false) :
    prefTs t tss
      = match prefTs none tss with
        | .ok none => .ok t
        | .ok (some w) => .ok (some w)
        | .error e => .error e := by
  induction tss generalizing t with
  | nil => simp [prefTs]
  | cons ts rest ih =>
    cases hit : pyIter (tsAreas ts) with
    | error e => simp [prefTs, hit]
    | ok items =>
      cases h0 : prefAreas none items with
      | error e =>
        have hpa : prefAreas t items = .error e := by
          have h2 := prefAreas_today items t
          rw [h0] at h2
          exact h2
        simp [prefTs, hit, hpa, h0]
      | ok u0 =>
        cases u0 with
        | none =>
          have hpa : prefAreas t items = .ok t := prefAreas_today_none items t h0
          have ih' := ih t ht
          have hnone : truthyOpt (none : Option JSON) = false := rfl
          simp [prefTs, hit, hpa, h0, ht, hnone, ih']
        | some w0 =>
          have hpa : prefAreas t items = .ok (some w0) := by
            have h2 := prefAreas_today items t
            rw [h0] at h2
            exact h2
          cases hw0 : truthyOpt (some w0) with
          | true => simp [prefTs, hit, hpa, h0, hw0]
          | false =>
            cases hrest : prefTs (some w0) rest with
            | error e => simp [prefTs, hit, hpa, h0, hw0, hrest]
            | ok u =>
              cases u with
              | none => exact absurd hrest (prefTs_some_ne_none rest w0)
              | some w2 => simp [prefTs, hit, hpa, h0, hw0, hrest]

/-- `prefTs_today` specialised to a scan that ends with `today_weather`
still `None`. -/
theorem prefTs_today_none (tss : List JSON) (t : Option JSON) (ht : truthyOpt t = false)
    (h : prefTs none tss = .ok none) : prefTs t tss = .ok t := by
  have h2 := prefTs_today tss t ht
  rw [h] at h2
  exact h2

/-- `prefTs_today` specialised to a scan that ends with `today_weather` set. -/
theorem prefTs_today_some (tss : List JSON) (t : Option JSON) (w : JSON)
    (ht : truthyOpt t = false) (h : prefTs none tss = .ok (some w)) :
    prefTs t tss = .ok (some w) := by
  have h2 := prefTs_today tss t ht
  rw [h] at h2
  exact h2

/-- Splitting the preferred pass's report loop at a falsy `today_weather`. -/
theorem prefObjs_append (objs1 : List JSON) (t : Option JSON) (ht : truthyOpt t = false)
    (objs2 : List JSON) :
    prefObjs t (objs1 ++ objs2)
      = match prefObjs t objs1 with
        | .error e => .error e
        | .ok t1 => if truthyOpt t1 then .ok t1 else prefObjs t1 objs2 := by
  induction objs1 generalizing t with
  | nil => simp [prefObjs, ht]
  | cons o rest ih =>
    cases hit : pyIter (objTimeSeries o) with
    | error e => simp [prefObjs, hit]
    | ok items =>
      cases hts : prefTs t items with
      | error e => simp [prefObjs, hit, hts]
      | ok t1 =>
        cases ht1 : truthyOpt t1 with
        | true => simp [prefObjs, hit, hts, ht1]
        | false => simp [prefObjs, hit, hts, ht1, ih t1 ht1]

/-- C3 as amended: when the preferred pass reaches an area whose name
contains a preferred location name, whose weathers list is non-empty, and
whose first weather entry is truthy (in particular a non-empty string),
that entry is the pass's result and all three loops stop: nothing placed
after that area in the document (`asPost`, `tssPost`, `objsPost` are
arbitrary) affects the result.  "Reaches" means: the reports before it end
with a falsy `today_weather`, the earlier time-series entries of its report
end with a falsy `today_weather`, and no earlier area of its own areas list
matched.  (Without the added truthiness condition the claim fails — a match
whose first entry is "" does not stop the traversal; see the
counterexample.) -/
theorem c3_amended
    (objsPre objsPost tssPre tssPost asPre asPost : List JSON)
    (okvs tkvs akvs : List (String × JSON))
    (tsVal areasVal w : JSON) (ws : List JSON) (t4 t3 : Option JSON)
    (hobjs : prefObjs none objsPre = .ok t4) (ht4 : truthyOpt t4 = false)
    (hok : lookupKey okvs "timeSeries" = some tsVal)
    (hits : pyIter tsVal = .ok (tssPre ++ .obj tkvs :: tssPost))
    (htss : prefTs none tssPre = .ok t3) (ht3 : truthyOpt t3 = false)
    (htk : lookupKey tkvs "areas" = some areasVal)
    (hias : pyIter areasVal = .ok (asPre ++ .obj akvs :: asPost))
    (has : prefAreas none asPre = .ok none)
    (hwe : lookupKey akvs "weathers" = some (.arr (w :: ws)))
    (hname : anyPreferredIn (areaName akvs) = .ok true)
    (hw : w.truthy = true) :
    prefPass (.arr (objsPre ++ .obj okvs :: objsPost)) = .ok (some w)
    ∧ get_tokyo_weather_ofDoc (.arr (objsPre ++ .obj okvs :: objsPost))
      = "東京の今日の天気: " ++ pyStr w := by
  have hsw : truthyOpt (some w) = w.truthy := rfl
  have haveA : ∀ t', prefAreas t' (asPre ++ .obj akvs :: asPost) = .ok (some w) := by
    intro t'
    rw [prefAreas_split asPre t' (.obj akvs :: asPost), has]
    have hstep : prefAreaStep (.obj akvs) = .found w := by
      simp [prefAreaStep, hwe, hname]
    simp [prefAreas, hstep]
  have haveB : ∀ t', prefTs t' (.obj tkvs :: tssPost) = .ok (some w) := by
    intro t'
    have hareasJ : tsAreas (.obj tkvs) = areasVal := by simp [tsAreas, htk]
    simp [prefTs, hareasJ, hias, haveA t', hsw, hw]
  have haveC : ∀ t', truthyOpt t' = false →
      prefTs t' (tssPre ++ .obj tkvs :: tssPost) = .ok (some w) := by
    intro t' ht'
    rw [prefTs_append tssPre t' ht' (.obj tkvs :: tssPost)]
    cases t3 with
    | none =>
      have h3 : prefTs t' tssPre = .ok t' := prefTs_today_none tssPre t' ht' htss
      simp [h3, ht', haveB t']
    | some w3 =>
      have h3 : prefTs t' tssPre = .ok (some w3) := prefTs_today_some tssPre t' w3 ht' htss
      simp [h3, ht3, haveB (some w3)]
  have keyD : prefObjs t4 (.obj okvs :: objsPost) = .ok (some w) := by
    have htsJ : objTimeSeries (.obj okvs) = tsVal := by simp [objTimeSeries, hok]
    simp [prefObjs, htsJ, hits, haveC t4 ht4, hsw, hw]
  have key : prefObjs none (objsPre ++ .obj okvs :: objsPost) = .ok (some w) := by
    rw [prefObjs_append objsPre none rfl (.obj okvs :: objsPost), hobjs]
    simp [ht4, keyD]
  refine ⟨key, ?_⟩
  have hres : tokyoResolve (.arr (objsPre ++ .obj okvs :: objsPost)) = .ok (some w) := by
    simp [tokyoResolve, prefPass, key, hsw, hw]
  simp [get_tokyo_weather_ofDoc, hres, hw]

/-- Witness for C3's amended theorem: a one-report, one-time-series,
one-area document whose single area is named 東京地方 with weathers
["晴れ"]. -/
theorem c3_amended_witness :
    prefPass (.arr [.obj [("timeSeries", .arr [.obj [("areas", .arr [
      .obj [("area", .obj [("name", .str "東京地方")]), ("weathers", .arr [.str "晴れ"])]])]])]])
      = .ok (some (.str "晴れ"))
    ∧ get_tokyo_weather_ofDoc (.arr [.obj [("timeSeries", .arr [.obj [("areas", .arr [
      .obj [("area", .obj [("name", .str "東京地方")]), ("weathers", .arr [.str "晴れ"])]])]])]])
      = "東京の今日の天気: " ++ pyStr (.str "晴れ") :=
  c3_amended [] [] [] [] [] []
    [("timeSeries", .arr [.obj [("areas", .arr [
      .obj [("area", .obj [("name", .str "東京地方")]), ("weathers", .arr [.str "晴れ"])]])]])]
    [("areas", .arr [
      .obj [("area", .obj [("name", .str "東京地方")]), ("weathers", .arr [.str "晴れ"])]])]
    [("area", .obj [("name", .str "東京地方")]), ("weathers", .arr [.str "晴れ"])]
    (.arr [.obj [("areas", .arr [
      .obj [("area", .obj [("name", .str "東京地方")]), ("weathers", .arr [.str "晴れ"])]])]])
    (.arr [.obj [("area", .obj [("name", .str "東京地方")]), ("weathers", .arr [.str "晴れ"])]])
    (.str "晴れ") [] none none
    rfl rfl rfl rfl rfl rfl rfl rfl rfl rfl rfl rfl

/-- A key whose membership test fails is absent from the key/value list. -/
theorem lookupKey_none_of_any_false (kvs : List (String × JSON)) (key : String)
    (h : kvs.any (fun kv => kv.1 == key) = false) : lookupKey kvs key = none := by
  induction kvs with
  | nil => rfl
  | cons kv rest ih =>
    rw [List.any_cons, Bool.or_eq_false_iff] at h
    simp [lookupKey, h.1, ih h.2]

/-- A key whose membership test succeeds is present in the key/value list. -/
theorem lookupKey_isSome_of_any_true (kvs : List (String × JSON)) (key : String)
    (h : kvs.any (fun kv => kv.1 == key) = true) : ∃ v, lookupKey kvs key = some v := by
  induction kvs with
  | nil => simp at h
  | cons kv rest ih =>
    cases hk : kv.1 == key with
    | true => exact ⟨kv.2, by simp [lookupKey, hk]⟩
    | false =>
      rw [List.any_cons, hk, Bool.false_or] at h
      obtain ⟨v, hv⟩ := ih h
      exact ⟨v, by simp [lookupKey, hk, hv]⟩

/-- A fallible comprehension over a non-empty list succeeds only with a
non-empty result whose head comes from the first element. -/
theorem mapExcept_cons (f : JSON → Except PyErr String) (x : JSON) (xs : List JSON)
    (l : List String) (h : mapExcept f (x :: xs) = .ok l) :
    ∃ a rest, l = a :: rest ∧ f x = .ok a := by
  unfold mapExcept at h
  cases hf : f x with
  | error e => rw [hf] at h; exact Except.noConfusion h
  | ok a =>
    rw [hf] at h
    cases hm : mapExcept f xs with
    | error e => rw [hm] at h; exact Except.noConfusion h
    | ok rest =>
      rw [hm] at h
      injection h with h2
      exact ⟨a, rest, h2.symm, rfl⟩

/-- Strings whose character lists start with different characters differ. -/
theorem ne_of_data_head (s r : String) (c d : Char) (ls lr : List Char)
    (hs : s.data = c :: ls) (hr : r.data = d :: lr) (hcd : c ≠ d) : s ≠ r := by
  intro hsr
  rw [hsr, hr] at hs
  injection hs with h1 _
  exact hcd h1.symm

/-- Every successful `format_alert` rendering starts with a newline. -/
theorem format_alert_head (f : JSON) (s : String) (h : format_alert f = .ok s) :
    ∃ l, s.data = '\n' :: l := by
  unfold format_alert at h
  cases hp : pySubscript f "properties" with
  | error e => rw [hp] at h; exact Except.noConfusion h
  | ok props =>
    rw [hp] at h
    cases props with
    | obj pkvs =>
      injection h with h2
      have hd := congrArg String.data h2
      simp only [String.data_append] at hd
      simp only [List.cons_append, List.nil_append, List.append_assoc] at hd
      exact ⟨_, hd.symm⟩
    | null => exact Except.noConfusion h
    | bool b => exact Except.noConfusion h
    | num n => exact Except.noConfusion h
    | str s2 => exact Except.noConfusion h
    | arr xs => exact Except.noConfusion h

/-- A joined list of parts starts with its first part's first character. -/
theorem pyJoin_head (sep x : String) (rest : List String) (c : Char) (l : List Char)
    (hx : x.data = c :: l) : ∃ m, (pyJoin sep (x :: rest)).data = c :: m := by
  cases rest with
  | nil => exact ⟨l, by simpa [pyJoin] using hx⟩
  | cons y r =>
    refine ⟨l ++ (sep.data ++ (pyJoin sep (y :: r)).data), ?_⟩
    simp [pyJoin, String.data_append, hx, List.append_assoc]

/-- A truthy value iterates into at least one item. -/
theorem pyIter_ne_nil (v : JSON) (hv : v.truthy = true) (items : List JSON)
    (hi : pyIter v = .ok items) : ∃ i0 itl, items = i0 :: itl := by
  cases v with
  | null => exact Except.noConfusion hi
  | bool b => exact Except.noConfusion hi
  | num n => exact Except.noConfusion hi
  | str s =>
    cases hsd : s.data with
    | nil =>
      have hs0 : s = "" := String.ext hsd
      rw [hs0] at hv
      exact absurd hv (by decide)
    | cons c0 cl =>
      injection hi with h2
      rw [hsd] at h2
      exact ⟨_, _, h2.symm⟩
  | arr xs =>
    cases xs with
    | nil => exact absurd hv (by decide)
    | cons x0 xtl =>
      injection hi with h2
      exact ⟨_, _, h2.symm⟩
  | obj kvs =>
    cases kvs with
    | nil => exact absurd hv (by decide)
    | cons kv ktl =>
      injection hi with h2
      exact ⟨_, _, h2.symm⟩

/-- C8 case split: `get_alerts` returned neither message (an exception or a
formatted alert list), so both characterisations are false. -/
theorem c8_case_neither (d : JSON)
    (h1 : get_alerts (some d) ≠ .ok "No active alerts for this state.")
    (h2 : get_alerts (some d) ≠ .ok "Unable to fetch alerts or no alerts found.")
    (h3 : d.truthy = true)
    (h4 : pyInJSON "features" d ≠ .ok false)
    (h5 : ∀ kvs v, d = .obj kvs → lookupKey kvs "features" = some v → v.truthy = true) :
    (get_alerts (some d) = .ok "No active alerts for this state."
      ↔ ∃ kvs v, (some d : Option JSON) = some (.obj kvs) ∧ (JSON.obj kvs).truthy = true
          ∧ lookupKey kvs "features" = some v ∧ v.truthy = false)
    ∧ (get_alerts (some d) = .ok "Unable to fetch alerts or no alerts found."
      ↔ ((some d : Option JSON) = none
          ∨ ∃ d2, (some d : Option JSON) = some d2
              ∧ (d2.truthy = false ∨ pyInJSON "features" d2 = .ok false))) := by
  constructor
  · constructor
    · intro h; exact absurd h h1
    · rintro ⟨kvs, v, heq, htr, hlk, hvt⟩
      injection heq with heq2
      subst heq2
      rw [h5 kvs v rfl hlk] at hvt
      exact Bool.noConfusion hvt
  · constructor
    · intro h; exact absurd h h2
    · rintro (h | ⟨d2, hd2, hor⟩)
      · exact Option.noConfusion h
      · injection hd2 with hd3
        subst hd3
        rcases hor with hfal | hcon
        · rw [h3] at hfal; exact Bool.noConfusion hfal
        · exact absurd hcon h4

/-- C8 case split built on `c8_case_neither`: `get_alerts` raised. -/
theorem c8_case_error (d : JSON) (e : PyErr)
    (hga : get_alerts (some d) = .error e)
    (h3 : d.truthy = true)
    (h4 : pyInJSON "features" d ≠ .ok false)
    (h5 : ∀ kvs v, d = .obj kvs → lookupKey kvs "features" = some v → v.truthy = true) :
    (get_alerts (some d) = .ok "No active alerts for this state."
      ↔ ∃ kvs v, (some d : Option JSON) = some (.obj kvs) ∧ (JSON.obj kvs).truthy = true
          ∧ lookupKey kvs "features" = some v ∧ v.truthy = false)
    ∧ (get_alerts (some d) = .ok "Unable to fetch alerts or no alerts found."
      ↔ ((some d : Option JSON) = none
          ∨ ∃ d2, (some d : Option JSON) = some d2
              ∧ (d2.truthy = false ∨ pyInJSON "features" d2 = .ok false))) :=
  c8_case_neither d (by rw [hga]; exact fun h => Except.noConfusion h)
    (by rw [hga]; exact fun h => Except.noConfusion h) h3 h4 h5

/-- C8 case split: `get_alerts` returned the unable-to-fetch message. -/
theorem c8_case_unable (d : JSON)
    (hga : get_alerts (some d) = .ok "Unable to fetch alerts or no alerts found.")
    (hside : d.truthy = false ∨ pyInJSON "features" d = .ok false)
    (h5 : ∀ kvs v, d = .obj kvs → lookupKey kvs "features" = some v → False) :
    (get_alerts (some d) = .ok "No active alerts for this state."
      ↔ ∃ kvs v, (some d : Option JSON) = some (.obj kvs) ∧ (JSON.obj kvs).truthy = true
          ∧ lookupKey kvs "features" = some v ∧ v.truthy = false)
    ∧ (get_alerts (some d) = .ok "Unable to fetch alerts or no alerts found."
      ↔ ((some d : Option JSON) = none
          ∨ ∃ d2, (some d : Option JSON) = some d2
              ∧ (d2.truthy = false ∨ pyInJSON "features" d2 = .ok false))) := by
  constructor
  · constructor
    · intro h
      rw [hga] at h
      injection h with h2
      exact absurd h2 (by decide)
    · rintro ⟨kvs, v, heq, htr, hlk, hvt⟩
      injection heq with heq2
      exact (h5 kvs v heq2 hlk).elim
  · exact ⟨fun _ => Or.inr ⟨d, rfl, hside⟩, fun _ => hga⟩

/-- C8 case split: `get_alerts` returned the no-active-alerts message. -/
theorem c8_case_noactive (kvs : List (String × JSON)) (v : JSON)
    (hga : get_alerts (some (.obj kvs)) = .ok "No active alerts for this state.")
    (ht : (JSON.obj kvs).truthy = true)
    (hlk : lookupKey kvs "features" = some v) (hvt : v.truthy = false)
    (hcon : pyInJSON "features" (.obj kvs) = .ok true) :
    (get_alerts (some (.obj kvs)) = .ok "No active alerts for this state."
      ↔ ∃ kvs2 v2, (some (JSON.obj kvs) : Option JSON) = some (.obj kvs2)
          ∧ (JSON.obj kvs2).truthy = true
          ∧ lookupKey kvs2 "features" = some v2 ∧ v2.truthy = false)
    ∧ (get_alerts (some (.obj kvs)) = .ok "Unable to fetch alerts or no alerts found."
      ↔ ((some (JSON.obj kvs) : Option JSON) = none
          ∨ ∃ d2, (some (JSON.obj kvs) : Option JSON) = some d2
              ∧ (d2.truthy = false ∨ pyInJSON "features" d2 = .ok false))) := by
  constructor
  · exact ⟨fun _ => ⟨kvs, v, rfl, ht, hlk, hvt⟩, fun _ => hga⟩
  · constructor
    · intro h
      rw [hga] at h
      injection h with h2
      exact absurd h2 (by decide)
    · rintro (h | ⟨d2, hd2, hor⟩)
      · exact Option.noConfusion h
      · injection hd2 with hd3
        rcases hor with hfal | hcon2
        · rw [← hd3, ht] at hfal; exact Bool.noConfusion hfal
        · rw [← hd3, hcon] at hcon2; injection hcon2 with h3; exact Bool.noConfusion h3

/-- C8 counterexample: a fetched document mapping "features" to `null` (not
an empty sequence) still produces the literal no-active-alerts message,
because the handler tests `if not data["features"]` — falsiness, not
emptiness of a sequence. -/
theorem c8_counterexample :
    get_alerts (some (.obj [("features", JSON.null)])) = .ok "No active alerts for this state."
    ∧ lookupKey [("features", JSON.null)] "features" ≠ some (.arr []) :=
  ⟨rfl, fun h => by injection h with h2; exact JSON.noConfusion h2⟩

/-- C8 as amended: `get_alerts` returns the literal no-active-alerts message
exactly when the fetch yields a truthy JSON object whose "features" key maps
to a falsy value (empty sequence, null, false, 0, "", or empty object); and
it returns the literal unable-to-fetch message exactly when the fetch yields
no data, a falsy document, or a document whose "features" membership test
answers false (for objects: no such key). -/
theorem c8_amended (data? : Option JSON) :
    (get_alerts data? = .ok "No active alerts for this state."
      ↔ ∃ kvs v, data? = some (.obj kvs) ∧ (JSON.obj kvs).truthy = true
          ∧ lookupKey kvs "features" = some v ∧ v.truthy = false)
    ∧ (get_alerts data? = .ok "Unable to fetch alerts or no alerts found."
      ↔ (data? = none
          ∨ ∃ d2, data? = some d2
              ∧ (d2.truthy = false ∨ pyInJSON "features" d2 = .ok false))) := by
  cases data? with
  | none =>
    constructor
    · constructor
      · intro h; injection h with h2; exact absurd h2 (by decide)
      · rintro ⟨kvs, v, heq, -⟩; exact Option.noConfusion heq
    · exact ⟨fun _ => Or.inl rfl, fun _ => rfl⟩
  | some d =>
    cases d with
    | null =>
      exact c8_case_unable .null rfl (Or.inl rfl) (fun kvs v hd _ => JSON.noConfusion hd)
    | bool b =>
      cases b with
      | false =>
        exact c8_case_unable (.bool false) rfl (Or.inl rfl)
          (fun kvs v hd _ => JSON.noConfusion hd)
      | true =>
        exact c8_case_error (.bool true) .typeError rfl rfl (by simp [pyInJSON])
          (fun kvs v hd _ => JSON.noConfusion hd)
    | num n =>
      by_cases hn : n = 0
      · subst hn
        exact c8_case_unable (.num 0) rfl (Or.inl rfl) (fun kvs v hd _ => JSON.noConfusion hd)
      · have ht : (JSON.num n).truthy = true := by simpa [JSON.truthy] using hn
        have hga : get_alerts (some (.num n)) = .error .typeError := by
          simp [get_alerts, ht, pyInJSON]
        exact c8_case_error (.num n) .typeError hga ht (by simp [pyInJSON])
          (fun kvs v hd _ => JSON.noConfusion hd)
    | str s =>
      by_cases hs : s = ""
      · subst hs
        exact c8_case_unable (.str "") rfl (Or.inl rfl) (fun kvs v hd _ => JSON.noConfusion hd)
      · have ht : (JSON.str s).truthy = true := by simpa [JSON.truthy] using hs
        cases hc : strContains s "features" with
        | false =>
          have hga : get_alerts (some (.str s))
              = .ok "Unable to fetch alerts or no alerts found." := by
            simp [get_alerts, ht, pyInJSON, hc]
          exact c8_case_unable (.str s) hga (Or.inr (by simp [pyInJSON, hc]))
            (fun kvs v hd _ => JSON.noConfusion hd)
        | true =>
          have hga : get_alerts (some (.str s)) = .error .typeError := by
            simp [get_alerts, ht, pyInJSON, hc, pySubscript]
          exact c8_case_error (.str s) .typeError hga ht (by simp [pyInJSON, hc])
            (fun kvs v hd _ => JSON.noConfusion hd)
    | arr xs =>
      cases xs with
      | nil =>
        exact c8_case_unable (.arr []) rfl (Or.inl rfl) (fun kvs v hd _ => JSON.noConfusion hd)
      | cons x xtl =>
        have ht : (JSON.arr (x :: xtl)).truthy = true := rfl
        cases hc : (x :: xtl).any (fun y => match y with | JSON.str t => t == "features" | _ => false) with
        | false =>
          have hga : get_alerts (some (.arr (x :: xtl)))
              = .ok "Unable to fetch alerts or no alerts found." := by
            simp [get_alerts, ht, pyInJSON, hc]
          exact c8_case_unable (.arr (x :: xtl)) hga (Or.inr (by simp [pyInJSON, hc]))
            (fun kvs v hd _ => JSON.noConfusion hd)
        | true =>
          have hga : get_alerts (some (.arr (x :: xtl))) = .error .typeError := by
            simp [get_alerts, ht, pyInJSON, hc, pySubscript]
          exact c8_case_error (.arr (x :: xtl)) .typeError hga ht (by simp [pyInJSON, hc])
            (fun kvs v hd _ => JSON.noConfusion hd)
    | obj kvs =>
      cases kvs with
      | nil =>
        refine c8_case_unable (.obj []) rfl (Or.inl rfl) ?_
        intro kvs2 v hd hl
        injection hd with hd2
        rw [← hd2] at hl
        simp [lookupKey] at hl
      | cons kv ktl =>
        have ht : (JSON.obj (kv :: ktl)).truthy = true := rfl
        cases hc : (kv :: ktl).any (fun kv2 => kv2.1 == "features") with
        | false =>
          have hlk := lookupKey_none_of_any_false (kv :: ktl) "features" hc
          have hga : get_alerts (some (.obj (kv :: ktl)))
              = .ok "Unable to fetch alerts or no alerts found." := by
            simp [get_alerts, ht, pyInJSON, hc]
          refine c8_case_unable (.obj (kv :: ktl)) hga (Or.inr (by simp [pyInJSON, hc])) ?_
          intro kvs2 v hd hl
          injection hd with hd2
          rw [← hd2, hlk] at hl
          exact Option.noConfusion hl
        | true =>
          obtain ⟨v, hv⟩ := lookupKey_isSome_of_any_true (kv :: ktl) "features" hc
          have hcon : pyInJSON "features" (.obj (kv :: ktl)) = .ok true := by
            simp [pyInJSON, hc]
          cases hvt : v.truthy with
          | false =>
            have hga : get_alerts (some (.obj (kv :: ktl)))
                = .ok "No active alerts for this state." := by
              simp [get_alerts, ht, pyInJSON, hc, pySubscript, hv, hvt]
            exact c8_case_noactive (kv :: ktl) v hga ht hv hvt hcon
          | true =>
            have h5 : ∀ kvs2 v2, JSON.obj (kv :: ktl) = .obj kvs2 →
                lookupKey kvs2 "features" = some v2 → v2.truthy = true := by
              intro kvs2 v2 hd hl
              injection hd with hd2
              rw [← hd2, hv] at hl
              injection hl with hl2
              rw [← hl2]
              exact hvt
            have h4 : pyInJSON "features" (.obj (kv :: ktl)) ≠ .ok false := by
              rw [hcon]
              intro hx
              injection hx with hx2
              exact Bool.noConfusion hx2
            cases hi : pyIter v with
            | error e =>
              have hga : get_alerts (some (.obj (kv :: ktl))) = .error e := by
                simp [get_alerts, ht, pyInJSON, hc, pySubscript, hv, hvt, hi]
              exact c8_case_error (.obj (kv :: ktl)) e hga ht h4 h5
            | ok items =>
              obtain ⟨i0, itl, hitems⟩ := pyIter_ne_nil v hvt items hi
              subst hitems
              cases hme : mapExcept format_alert (i0 :: itl) with
              | error e =>
                have hga : get_alerts (some (.obj (kv :: ktl))) = .error e := by
                  simp [get_alerts, ht, pyInJSON, hc, pySubscript, hv, hvt, hi, hme]
                exact c8_case_error (.obj (kv :: ktl)) e hga ht h4 h5
              | ok alerts =>
                obtain ⟨a0, arest, halerts, ha0⟩ := mapExcept_cons format_alert i0 itl alerts hme
                subst halerts
                obtain ⟨l, hl⟩ := format_alert_head i0 a0 ha0
                obtain ⟨m, hm⟩ := pyJoin_head "\n---\n" a0 arest '\n' l hl
                have hga : get_alerts (some (.obj (kv :: ktl)))
                    = .ok (pyJoin "\n---\n" (a0 :: arest)) := by
                  simp [get_alerts, ht, pyInJSON, hc, pySubscript, hv, hvt, hi, hme]
                have hne1 : pyJoin "\n---\n" (a0 :: arest) ≠ "No active alerts for this state." :=
                  ne_of_data_head _ _ '\n' 'N' m "o active alerts for this state.".data
                    hm rfl (by decide)
                have hne2 : pyJoin "\n---\n" (a0 :: arest)
                    ≠ "Unable to fetch alerts or no alerts found." :=
                  ne_of_data_head _ _ '\n' 'U' m "nable to fetch alerts or no alerts found.".data
                    hm rfl (by decide)
                refine c8_case_neither (.obj (kv :: ktl)) ?_ ?_ ht h4 h5
                · rw [hga]; intro h; injection h with h2; exact hne1 h2
                · rw [hga]; intro h; injection h with h2; exact hne2 h2
